import Mathlib

/-!
# GPU fleet manager — verification of the core allocation logic

Shallow embedding of the core modules of the `gpu-fleet-manager` repository:

* `src/core/gpu_allocator.py` — best-fit GPU search, allocation and release of a
  GPU record, and the transactional wrapper around (GPU, job, cost-session);
* `src/core/job_manager.py` — job lifecycle (allocation, completion callback,
  cancellation);
* `src/core/gpu_optimizer.py` — batch optimizer;
* `src/utils/spot_manager.py` — spot-instance provisioning;
* `src/utils/cost_tracker.py` — cost metering and usage reports;
* `src/services/gpu.py` — the Supabase-backed GPU service variant.

Python floats are modelled as rationals, timestamps as integers (seconds),
Python dicts keyed by id as association lists.  Database commit/rollback is
modelled explicitly: a failed transaction restores exactly the records the
session tracks (the GPU and job rows), and nothing else.
-/

namespace GpuFleet

instance {e a : Type} [DecidableEq e] [DecidableEq a] : DecidableEq (Except e a)
  | .ok x, .ok y => decidable_of_iff (x = y) (by simp)
  | .ok _, .error _ => isFalse (by simp)
  | .error _, .ok _ => isFalse (by simp)
  | .error x, .error y => decidable_of_iff (x = y) (by simp)

/-- GPU status values: the union of the `GPUStatus` enums in `src/models/gpu.py`
and `src/models/domain.py` (the allocator in `src/core/gpu_allocator.py` sets
`IN_USE`, which only the domain variant declares). -/
inductive GPUStatus where
  | available
  | in_use
  | busy
  | offline
  | provisioning
  | terminating
deriving DecidableEq, Repr

/-- Job status values from `src/models/job.py` / `src/models/domain.py`. -/
inductive JobStatus where
  | queued
  | running
  | completed
  | failed
  | cancelled
deriving DecidableEq, Repr

/-- A GPU record: the fields of the `gpus` table (`src/models/gpu.py`) that the
core allocation and provisioning paths read or write.  `current_job_count` is
the per-GPU running-job counter used by `GPUAllocator`; memory sizes are MB
integers; `cost_per_hour` (a Python float) is a rational; `termination_time` is
an absolute timestamp when a spot termination is scheduled. -/
structure GPU where
  id : Nat
  organization_id : Nat
  status : GPUStatus
  total_memory : Int
  available_memory : Int
  current_job_count : Nat
  capabilities : List (String × String)
  cost_per_hour : ℚ
  termination_time : Option Int
  provider_spot : Bool
deriving DecidableEq, Repr

/-- The GPU-record mutation performed by `GPUAllocator._allocate_gpu`
(`src/core/gpu_allocator.py:166-198`): flip the status to `IN_USE`, subtract the
job's `memory_required` from `available_memory`, increment `current_job_count`
(`(current_job_count or 0) + 1`), and raise `AllocationError` — the enclosing
`db.rollback()` then restores the record — exactly when the incremented count
exceeds the `MAX_JOBS_PER_GPU` setting. -/
def allocateGpuStep (maxJobs : Nat) (g : GPU) (memoryRequired : Int) :
    Except String GPU :=
  let g' : GPU :=
    { g with
      status := .in_use
      available_memory := g.available_memory - memoryRequired
      current_job_count := g.current_job_count + 1 }
  if maxJobs < g'.current_job_count then
    .error "has exceeded maximum job limit"
  else
    .ok g'

/-- The GPU-record mutation performed by `GPUAllocator.release_gpu`
(`src/core/gpu_allocator.py:200-236`): add the job's `memory_required` back,
decrement `current_job_count` clamped at zero (`max(0, (count or 1) - 1)`,
which on naturals is truncated subtraction), and flip the status back to
`AVAILABLE` exactly when the new count is zero. -/
def releaseGpuStep (g : GPU) (memoryRequired : Int) : GPU :=
  let count := g.current_job_count - 1
  { g with
    available_memory := g.available_memory + memoryRequired
    current_job_count := count
    status := if count = 0 then .available else g.status }

theorem allocateGpuStep_ok_iff (maxJobs : Nat) (g g' : GPU) (m : Int) :
    allocateGpuStep maxJobs g m = .ok g' ↔
      g.current_job_count + 1 ≤ maxJobs ∧
      g' = { g with
             status := .in_use
             available_memory := g.available_memory - m
             current_job_count := g.current_job_count + 1 } := by
  constructor
  · intro h
    simp only [allocateGpuStep] at h
    split at h
    · exact absurd h (by simp)
    · cases h
      refine ⟨by omega, rfl⟩
  · rintro ⟨hle, rfl⟩
    simp only [allocateGpuStep]
    rw [if_neg (by omega)]

/-- One allocator operation on a single GPU record: allocation or release of a
job requiring `memoryRequired` MB. -/
inductive GpuOp where
  | alloc (memoryRequired : Int)
  | release (memoryRequired : Int)
deriving DecidableEq, Repr

/-- Apply one allocator operation; a failed allocation is rolled back and
leaves the record unchanged. -/
def applyGpuOp (maxJobs : Nat) (g : GPU) : GpuOp → GPU
  | .alloc m =>
    match allocateGpuStep maxJobs g m with
    | .ok g' => g'
    | .error _ => g
  | .release m => releaseGpuStep g m

/-- Run a sequence of allocator operations against one GPU record. -/
def runGpuOps (maxJobs : Nat) (g : GPU) (ops : List GpuOp) : GPU :=
  ops.foldl (applyGpuOp maxJobs) g

theorem applyGpuOp_count_le (maxJobs : Nat) (g : GPU) (op : GpuOp)
    (h : g.current_job_count ≤ maxJobs) :
    (applyGpuOp maxJobs g op).current_job_count ≤ maxJobs := by
  cases op with
  | alloc m =>
    simp only [applyGpuOp]
    cases hstep : allocateGpuStep maxJobs g m with
    | ok g' =>
      obtain ⟨hle, rfl⟩ := (allocateGpuStep_ok_iff maxJobs g g' m).mp hstep
      exact hle
    | error e => exact h
  | release m =>
    show g.current_job_count - 1 ≤ maxJobs
    omega

theorem runGpuOps_count_le (maxJobs : Nat) (ops : List GpuOp) (g : GPU)
    (h : g.current_job_count ≤ maxJobs) :
    (runGpuOps maxJobs g ops).current_job_count ≤ maxJobs := by
  induction ops generalizing g with
  | nil => exact h
  | cons op ops ih =>
    simp only [runGpuOps, List.foldl_cons] at *
    exact ih _ (applyGpuOp_count_le maxJobs g op h)

/-- A GPU record in a fresh, fully free state: the claim C1 invariant holds of
it before any operation runs. -/
def c1Gpu : GPU :=
  { id := 1
    organization_id := 1
    status := .available
    total_memory := 16000
    available_memory := 16000
    current_job_count := 0
    capabilities := [("compute_capability", "8.0")]
    cost_per_hour := 1
    termination_time := none
    provider_spot := false }

/-- `c1Gpu` after `_allocate_gpu` has placed an 8000 MB job on it. -/
def c1GpuAllocated : GPU :=
  { c1Gpu with
    status := .in_use
    available_memory := 8000
    current_job_count := 1 }

/-- C1, counterexample.  The claim "`0 ≤ available_memory ≤ total_memory` at
all times" is false on the code: `_allocate_gpu` subtracts the job's
`memory_required` without checking it against `available_memory` (the search
filter only checks the model's `min_memory`, a different quantity), so a single
allocation of a 20000 MB job on a fully free 16000 MB GPU succeeds and drives
`available_memory` to −4000. -/
theorem allocate_can_overdraw_memory :
    0 ≤ c1Gpu.available_memory ∧
    c1Gpu.available_memory ≤ c1Gpu.total_memory ∧
    c1Gpu.current_job_count ≤ 4 ∧
    (runGpuOps 4 c1Gpu [GpuOp.alloc 20000]).available_memory < 0 := by
  decide

/-- C1, amended.  The job-count half of the invariant does hold
unconditionally: a successful allocation leaves `current_job_count ≤ maxJobs`
(the over-limit case is rolled back), release never increases the count, and
any operation sequence preserves `current_job_count ≤ maxJobs`.  The memory
half `0 ≤ available_memory ≤ total_memory` is preserved only under the side
conditions the code does not check: an allocation preserves it when the job's
`memory_required` is at most `available_memory`, and a release when the memory
returned fits under `total_memory`. -/
theorem gpu_invariants_amended (maxJobs : Nat) (g g' : GPU) (m : Int)
    (ops : List GpuOp) :
    (allocateGpuStep maxJobs g m = .ok g' → g'.current_job_count ≤ maxJobs) ∧
    ((releaseGpuStep g m).current_job_count ≤ g.current_job_count) ∧
    (allocateGpuStep maxJobs g m = .ok g' → 0 ≤ m → m ≤ g.available_memory →
      g.available_memory ≤ g.total_memory →
      0 ≤ g'.available_memory ∧ g'.available_memory ≤ g'.total_memory) ∧
    (0 ≤ g.available_memory → 0 ≤ m →
      g.available_memory + m ≤ g.total_memory →
      0 ≤ (releaseGpuStep g m).available_memory ∧
      (releaseGpuStep g m).available_memory ≤ (releaseGpuStep g m).total_memory) ∧
    (g.current_job_count ≤ maxJobs →
      (runGpuOps maxJobs g ops).current_job_count ≤ maxJobs) := by
  refine ⟨?_, ?_, ?_, ?_, ?_⟩
  · intro h
    obtain ⟨hle, rfl⟩ := (allocateGpuStep_ok_iff maxJobs g g' m).mp h
    exact hle
  · show g.current_job_count - 1 ≤ g.current_job_count
    omega
  · intro h h0 hle htot
    obtain ⟨_, rfl⟩ := (allocateGpuStep_ok_iff maxJobs g g' m).mp h
    constructor
    · show (0 : Int) ≤ g.available_memory - m
      omega
    · show g.available_memory - m ≤ g.total_memory
      omega
  · intro h0 hm htot
    constructor
    · show (0 : Int) ≤ g.available_memory + m
      omega
    · show g.available_memory + m ≤ g.total_memory
      omega
  · exact runGpuOps_count_le maxJobs ops g

/-- Witness for `gpu_invariants_amended` at a concrete input: allocating an
8000 MB job on the free 16000 MB GPU keeps the job count within bound. -/
theorem gpu_invariants_amended_witness :
    allocateGpuStep 4 c1Gpu 8000 = .ok c1GpuAllocated ∧
    c1GpuAllocated.current_job_count ≤ 4 :=
  ⟨rfl, (gpu_invariants_amended 4 c1Gpu c1GpuAllocated 8000 []).1 rfl⟩

/-- C2: a successful allocation followed immediately by a release of the same
job restores `available_memory` and `current_job_count` exactly to their
pre-allocation values. -/
theorem allocate_release_round_trip (maxJobs : Nat) (g g' : GPU) (m : Int)
    (h : allocateGpuStep maxJobs g m = .ok g') :
    (releaseGpuStep g' m).available_memory = g.available_memory ∧
    (releaseGpuStep g' m).current_job_count = g.current_job_count := by
  obtain ⟨hle, rfl⟩ := (allocateGpuStep_ok_iff maxJobs g g' m).mp h
  constructor
  · show g.available_memory - m + m = g.available_memory
    omega
  · show g.current_job_count + 1 - 1 = g.current_job_count
    omega

/-- Witness for `allocate_release_round_trip`: the round trip on the concrete
GPU `c1Gpu` with an 8000 MB job. -/
theorem allocate_release_round_trip_witness :
    (releaseGpuStep c1GpuAllocated 8000).available_memory =
      c1Gpu.available_memory ∧
    (releaseGpuStep c1GpuAllocated 8000).current_job_count =
      c1Gpu.current_job_count :=
  allocate_release_round_trip 4 c1Gpu c1GpuAllocated 8000 rfl

/-- Leftmost minimum of a list under a strict comparison: the semantics of
Python's `min(..., key=...)` and of reading the first row of an `ORDER BY` —
a later element replaces the current best only when strictly smaller. -/
def minBy (lt : α → α → Prop) [DecidableRel lt] : List α → Option α
  | [] => none
  | x :: xs =>
    match minBy lt xs with
    | none => some x
    | some b => some (if lt b x then b else x)

theorem minBy_eq_none_iff (lt : α → α → Prop) [DecidableRel lt] (l : List α) :
    minBy lt l = none ↔ l = [] := by
  cases l with
  | nil => simp [minBy]
  | cons x xs =>
    simp only [minBy]
    cases minBy lt xs <;> simp

theorem minBy_mem (lt : α → α → Prop) [DecidableRel lt] (l : List α) (m : α)
    (h : minBy lt l = some m) : m ∈ l := by
  induction l generalizing m with
  | nil => cases h
  | cons x xs ih =>
    simp only [minBy] at h
    cases hxs : minBy lt xs with
    | none =>
      rw [hxs] at h
      cases h
      exact List.mem_cons_self x xs
    | some b =>
      rw [hxs] at h
      cases h
      split
      · exact List.mem_cons_of_mem x (ih b hxs)
      · exact List.mem_cons_self x xs

theorem minBy_not_lt (lt : α → α → Prop) [DecidableRel lt]
    (hasymm : ∀ a b, lt a b → ¬ lt b a)
    (htrans : ∀ a b c, ¬ lt a b → ¬ lt b c → ¬ lt a c)
    (l : List α) (m : α) (h : minBy lt l = some m) :
    ∀ x ∈ l, ¬ lt x m := by
  induction l generalizing m with
  | nil => cases h
  | cons y ys ih =>
    simp only [minBy] at h
    cases hys : minBy lt ys with
    | none =>
      rw [hys] at h
      cases h
      rw [minBy_eq_none_iff] at hys
      subst hys
      intro x hx
      rw [List.mem_singleton] at hx
      subst hx
      intro hlt
      exact hasymm x x hlt hlt
    | some b =>
      rw [hys] at h
      cases h
      intro x hx
      rcases List.mem_cons.mp hx with rfl | hx'
      · split
        · rename_i hby
          exact hasymm b x hby
        · rename_i hby
          intro hxx
          exact hasymm x x hxx hxx
      · split
        · rename_i hby
          exact ih b hys x hx'
        · rename_i hby
          exact htrans x b y (ih b hys x hx') hby

/-- The `WHERE` clause of `GPUAllocator._find_available_gpu`
(`src/core/gpu_allocator.py:136-151`): same organization, `status = AVAILABLE`,
`available_memory ≥ min_memory`, `termination_time` absent or still in the
future, and every required capability present with an equal value in the GPU's
`capabilities` JSON. -/
def gpuMatches (orgId : Nat) (minMemory : Int)
    (requiredCapabilities : List (String × String)) (now : Int) (g : GPU) :
    Bool :=
  g.organization_id == orgId &&
  g.status == .available &&
  decide (minMemory ≤ g.available_memory) &&
  (match g.termination_time with
   | none => true
   | some t => decide (now < t)) &&
  requiredCapabilities.all fun c => g.capabilities.lookup c.1 == some c.2

/-- The `ORDER BY` comparison of `_find_available_gpu`
(`src/core/gpu_allocator.py:153-158`): strictly smaller
`abs(available_memory − min_memory)` first, then strictly smaller
`cost_per_hour` as the tie-break. -/
def gpuOrderLt (minMemory : Int) (a b : GPU) : Prop :=
  |a.available_memory - minMemory| < |b.available_memory - minMemory| ∨
  (|a.available_memory - minMemory| = |b.available_memory - minMemory| ∧
   a.cost_per_hour < b.cost_per_hour)

instance (minMemory : Int) : DecidableRel (gpuOrderLt minMemory) := fun a b =>
  by unfold gpuOrderLt; infer_instance

theorem gpuOrderLt_asymm (minMemory : Int) (a b : GPU)
    (h : gpuOrderLt minMemory a b) : ¬ gpuOrderLt minMemory b a := by
  rcases h with h | ⟨heq, hc⟩ <;> rintro (h' | ⟨heq', hc'⟩) <;>
    first
      | exact absurd h' (not_lt.mpr (le_of_lt h))
      | omega
      | exact absurd hc' (not_lt.mpr (le_of_lt hc))

theorem gpuOrderLt_neg_trans (minMemory : Int) (a b c : GPU)
    (hab : ¬ gpuOrderLt minMemory a b) (hbc : ¬ gpuOrderLt minMemory b c) :
    ¬ gpuOrderLt minMemory a c := by
  unfold gpuOrderLt at *
  push_neg at hab hbc ⊢
  obtain ⟨hab1, hab2⟩ := hab
  obtain ⟨hbc1, hbc2⟩ := hbc
  constructor
  · omega
  · intro heq
    exact le_trans (hbc2 (by omega)) (hab2 (by omega))

/-- `GPUAllocator._find_available_gpu` (`src/core/gpu_allocator.py:127-164`):
filter the organization's pool by the `WHERE` clause, order by
`(abs(available_memory − min_memory), cost_per_hour)` and return the first
row, if any. -/
def findAvailableGpu (pool : List GPU) (orgId : Nat) (minMemory : Int)
    (requiredCapabilities : List (String × String)) (now : Int) : Option GPU :=
  minBy (gpuOrderLt minMemory)
    (pool.filter (gpuMatches orgId minMemory requiredCapabilities now))

theorem gpuMatches_memory_le (orgId : Nat) (minMemory : Int)
    (caps : List (String × String)) (now : Int) (g : GPU)
    (h : gpuMatches orgId minMemory caps now g = true) :
    minMemory ≤ g.available_memory := by
  simp only [gpuMatches, Bool.and_eq_true, decide_eq_true_eq] at h
  exact h.1.1.2

/-- C3: the search considers exactly the organization's GPUs with
`status = AVAILABLE`, enough `available_memory`, every required capability and
no already-passed termination time (`gpuMatches`); it returns `none` iff no
pool GPU qualifies, and a returned GPU qualifies and minimizes
`available_memory − min_memory` over all qualifying GPUs, with `cost_per_hour`
ascending as the tie-break. -/
theorem find_available_gpu_best_fit (pool : List GPU) (orgId : Nat)
    (minMemory : Int) (caps : List (String × String)) (now : Int) (g : GPU) :
    (findAvailableGpu pool orgId minMemory caps now = none ↔
      ∀ g' ∈ pool, gpuMatches orgId minMemory caps now g' = false) ∧
    (findAvailableGpu pool orgId minMemory caps now = some g →
      g ∈ pool ∧ gpuMatches orgId minMemory caps now g = true ∧
      ∀ g' ∈ pool, gpuMatches orgId minMemory caps now g' = true →
        g.available_memory - minMemory < g'.available_memory - minMemory ∨
        (g.available_memory - minMemory = g'.available_memory - minMemory ∧
         g.cost_per_hour ≤ g'.cost_per_hour)) := by
  constructor
  · rw [findAvailableGpu, minBy_eq_none_iff, List.filter_eq_nil_iff]
    constructor
    · intro h g' hg'
      exact Bool.eq_false_iff.mpr (h g' hg')
    · intro h g' hg'
      exact Bool.eq_false_iff.mp (h g' hg')
  · intro h
    have hmem := minBy_mem _ _ _ h
    rw [List.mem_filter] at hmem
    refine ⟨hmem.1, hmem.2, ?_⟩
    intro g' hg' hmatch
    have hmin := minBy_not_lt (gpuOrderLt minMemory)
      (gpuOrderLt_asymm minMemory) (gpuOrderLt_neg_trans minMemory) _ _ h g'
      (List.mem_filter.mpr ⟨hg', hmatch⟩)
    unfold gpuOrderLt at hmin
    push_neg at hmin
    obtain ⟨h1, h2⟩ := hmin
    have hag : minMemory ≤ g.available_memory :=
      gpuMatches_memory_le orgId minMemory caps now g hmem.2
    have hag' : minMemory ≤ g'.available_memory :=
      gpuMatches_memory_le orgId minMemory caps now g' hmatch
    have ha : |g.available_memory - minMemory| = g.available_memory - minMemory :=
      abs_of_nonneg (by omega)
    have ha' : |g'.available_memory - minMemory| = g'.available_memory - minMemory :=
      abs_of_nonneg (by omega)
    rw [ha, ha'] at h1 h2
    rcases lt_or_eq_of_le h1 with hlt | heq
    · left; exact hlt
    · right
      exact ⟨heq, h2 heq.symm⟩

/-- A pool for exercising the best-fit search: `gB` qualifies with the least
leftover memory; `gD` ties on leftover but is dearer; `gA` has more leftover;
`gC` is not `AVAILABLE`. -/
def gA : GPU :=
  { c1Gpu with id := 10, available_memory := 12000, cost_per_hour := 1 }

def gB : GPU :=
  { c1Gpu with id := 11, available_memory := 10000, cost_per_hour := 2 }

def gC : GPU :=
  { c1Gpu with id := 12, available_memory := 9000, status := .in_use }

def gD : GPU :=
  { c1Gpu with id := 13, available_memory := 10000, cost_per_hour := 3 }

def gpuPool : List GPU := [gA, gB, gC, gD]

/-- Witness for `find_available_gpu_best_fit`: on the concrete pool the search
returns `gB`, which qualifies and is best-fit. -/
theorem find_available_gpu_best_fit_witness :
    gB ∈ gpuPool ∧
    gpuMatches 1 8000 [("compute_capability", "8.0")] 0 gB = true ∧
    ∀ g' ∈ gpuPool, gpuMatches 1 8000 [("compute_capability", "8.0")] 0 g' = true →
      gB.available_memory - 8000 < g'.available_memory - 8000 ∨
      (gB.available_memory - 8000 = g'.available_memory - 8000 ∧
       gB.cost_per_hour ≤ g'.cost_per_hour) :=
  (find_available_gpu_best_fit gpuPool 1 8000
    [("compute_capability", "8.0")] 0 gB).2 (by decide)

/-- The job-record fields the allocator and job manager mutate
(`jobs` table, `src/models/job.py` / `src/models/domain.py`). -/
structure JobRec where
  id : Nat
  organization_id : Nat
  memory_required : Int
  status : JobStatus
  gpu_id : Option Nat
  compute_allocated : Bool
deriving DecidableEq, Repr

/-- `GPUAllocator.allocate_for_job` (`src/core/gpu_allocator.py:85-125`):
search the organization's pool with the model's `min_memory` and capability
requirements; on a hit run `_allocate_gpu`, re-raising any failure as
`AllocationError`; on a miss try a spot instance (abstracted here as an
optional already-provisioned GPU) and allocate on it; otherwise report no GPU
(`None`). -/
def allocateForJob (maxJobs : Nat) (pool : List GPU) (orgId : Nat)
    (minMemory : Int) (caps : List (String × String)) (now : Int)
    (memoryRequired : Int) (spotGpu : Option GPU) :
    Except String (Option GPU) :=
  match findAvailableGpu pool orgId minMemory caps now with
  | some g =>
    match allocateGpuStep maxJobs g memoryRequired with
    | .ok g' => .ok (some g')
    | .error e => .error ("Failed to allocate GPU: " ++ e)
  | none =>
    match spotGpu with
    | some g =>
      match allocateGpuStep maxJobs g memoryRequired with
      | .ok g' => .ok (some g')
      | .error e => .error ("Failed to allocate GPU: " ++ e)
    | none => .ok none

/-- The transitions the job state machine of the specification allows:
QUEUED→RUNNING, RUNNING→COMPLETED/FAILED, QUEUED/RUNNING→CANCELLED. -/
def allowedTransition : JobStatus → JobStatus → Bool
  | .queued, .running => true
  | .running, .completed => true
  | .running, .failed => true
  | .queued, .cancelled => true
  | .running, .cancelled => true
  | _, _ => false

/-- `JobManager.cancel_job` (`src/core/job_manager.py:57-90`) restricted to the
job's status: only QUEUED or RUNNING jobs may be cancelled; anything else
raises `ValueError` before any update is issued. -/
def cancelJob (s : JobStatus) : Except String JobStatus :=
  if s = .queued ∨ s = .running then .ok .cancelled
  else .error "Cannot cancel job"

/-- `JobManager._handle_job_completion` (`src/core/job_manager.py:147-182`)
restricted to the job's status: the update to COMPLETED (on success) or FAILED
(on error) is issued unconditionally — the fetched current status `s` is never
consulted before the write. -/
def handleJobCompletion (_s : JobStatus) (success : Bool) : JobStatus :=
  if success then .completed else .failed

/-- The three outcomes `JobManager._try_allocate_and_start` can observe from
the allocator: a GPU, no GPU (`None`), or a raised exception. -/
inductive AllocOutcome where
  | found (gpuId : Nat)
  | miss
  | failure (msg : String)
deriving DecidableEq, Repr

/-- The job-manager's view of an `allocate_for_job` result. -/
def outcomeOf : Except String (Option GPU) → AllocOutcome
  | .ok (some g) => .found g.id
  | .ok none => .miss
  | .error e => .failure e

/-- `JobManager._try_allocate_and_start` (`src/core/job_manager.py:92-123`)
restricted to the job's status: on a miss it returns with no update (the job
keeps its status), on a hit it sets RUNNING, and when the allocator raises it
sets FAILED with the error recorded. -/
def tryAllocateAndStart (s : JobStatus) : AllocOutcome → JobStatus
  | .found _ => .running
  | .miss => s
  | .failure _ => .failed

/-- C4, counterexample.  The completion callback does not respect the state
machine: completing a job that is already CANCELLED overwrites the terminal
status with COMPLETED — a transition outside the allowed set, performed
without an error and without leaving the state unchanged. -/
theorem completion_overwrites_terminal_status :
    handleJobCompletion .cancelled true = .completed ∧
    allowedTransition .cancelled .completed = false ∧
    handleJobCompletion .cancelled true ≠ .cancelled := by
  decide

/-- C4, amended.  Cancellation does respect the state machine: it succeeds
exactly on QUEUED and RUNNING jobs — an allowed transition in both cases — and
fails with an error (no update issued) on any terminal status.  The completion
callback, however, writes COMPLETED or FAILED unconditionally, whatever the
job's current status. -/
theorem job_transition_discipline (s : JobStatus) (success : Bool) :
    (cancelJob s = .ok .cancelled ↔ (s = .queued ∨ s = .running)) ∧
    ((s = .queued ∨ s = .running) → allowedTransition s .cancelled = true) ∧
    ((s = .completed ∨ s = .failed ∨ s = .cancelled) →
      cancelJob s = .error "Cannot cancel job") ∧
    handleJobCompletion s success = (if success then .completed else .failed) := by
  cases s <;> cases success <;> decide

/-- Witness for `job_transition_discipline`: cancelling a RUNNING job. -/
theorem job_transition_discipline_witness :
    cancelJob .running = .ok .cancelled ∧
    allowedTransition .running .cancelled = true :=
  ⟨(job_transition_discipline .running true).1.mpr (Or.inr rfl),
   (job_transition_discipline .running true).2.1 (Or.inr rfl)⟩

/-- A legal `gpus` row that is `AVAILABLE` with `current_job_count` already at
the `MAX_JOBS_PER_GPU` limit: the search filter accepts it (it never looks at
the job count), and `_allocate_gpu` then raises. -/
def c6Gpu : GPU :=
  { c1Gpu with id := 6, current_job_count := 4 }

/-- C6, counterexample.  "A failed allocation attempt never sets the job's
status to FAILED" is false on the code: when `allocate_for_job` raises
`AllocationError` (here: the selected GPU is already at the job limit),
`_try_allocate_and_start`'s `except` branch updates the job to FAILED instead
of leaving it QUEUED. -/
theorem alloc_failure_marks_job_failed :
    tryAllocateAndStart .queued
        (outcomeOf (allocateForJob 4 [c6Gpu] 1 16000 [] 0 16000 none)) =
      JobStatus.failed ∧
    tryAllocateAndStart .queued
        (outcomeOf (allocateForJob 4 [c6Gpu] 1 16000 [] 0 16000 none)) ≠
      JobStatus.queued := by
  decide

/-- C6, amended.  A plain miss (the allocator returns `None` because no
suitable GPU exists) leaves the job QUEUED for the next sweep; a hit sets it
RUNNING; but an exception raised inside allocation sets it FAILED. -/
theorem alloc_miss_keeps_job_queued (gpuId : Nat) (msg : String) :
    tryAllocateAndStart .queued .miss = .queued ∧
    tryAllocateAndStart .queued (.found gpuId) = .running ∧
    tryAllocateAndStart .queued (.failure msg) = .failed :=
  ⟨rfl, rfl, rfl⟩

/-- One entry of `CostTracker.usage_history` (`src/utils/cost_tracker.py`). -/
structure UsageRecord where
  gpu_model : String
  provider : String
  cost_per_hour : ℚ
  start_time : Int
  end_time : Option Int
  total_cost : ℚ
  total_hours : ℚ
  jobs_completed : Nat
deriving DecidableEq, Repr

/-- `CostTracker.start_tracking` (`src/utils/cost_tracker.py:19-29`): overwrite
the in-memory history entry keyed by `gpu_id` with a fresh open session
(`total_cost = total_hours = jobs_completed = 0`). -/
def startTracking (usage : List (Nat × UsageRecord)) (gpuId : Nat)
    (gpuModel provider : String) (costPerHour : ℚ) (now : Int) :
    List (Nat × UsageRecord) :=
  (gpuId,
    { gpu_model := gpuModel
      provider := provider
      cost_per_hour := costPerHour
      start_time := now
      end_time := none
      total_cost := 0
      total_hours := 0
      jobs_completed := 0 }) :: usage.filter (fun e => e.1 != gpuId)

/-- Closing of one session by `CostTracker.stop_tracking`
(`src/utils/cost_tracker.py:31-44`): `total_hours` is the elapsed seconds over
3600 and `total_cost = total_hours × cost_per_hour`. -/
def closeUsage (u : UsageRecord) (endTime : Int) : UsageRecord :=
  let hours : ℚ := ((endTime - u.start_time : Int) : ℚ) / 3600
  { u with
    total_hours := hours
    total_cost := hours * u.cost_per_hour
    end_time := some endTime }

/-- `CostTracker.stop_tracking` on the history: close the entry keyed by
`gpu_id` if present, otherwise change nothing. -/
def stopTracking (usage : List (Nat × UsageRecord)) (gpuId : Nat)
    (endTime : Int) : List (Nat × UsageRecord) :=
  usage.map fun e => if e.1 = gpuId then (e.1, closeUsage e.2 endTime) else e

/-- The state an allocation/release transaction touches: the GPU row and the
job row live in the database session and are restored together by
`db.rollback()`; the cost tracker's `usage_history` is an in-memory dict
outside the session. -/
structure AllocState where
  gpu : GPU
  job : JobRec
  sessions : List (Nat × UsageRecord)
deriving DecidableEq, Repr

/-- `GPUAllocator._allocate_gpu` (`src/core/gpu_allocator.py:166-198`) as a
transaction over `AllocState`.  `commitOk` says whether the final
`db.commit()` succeeds.  The job-limit failure happens before the tracker
insert, so rollback restores everything; a commit failure happens after it, so
rollback restores the GPU and job rows but the tracker insert survives. -/
def allocateTxn (maxJobs : Nat) (now : Int) (gpuModel provider : String)
    (commitOk : Bool) (st : AllocState) : AllocState × Bool :=
  match allocateGpuStep maxJobs st.gpu st.job.memory_required with
  | .error _ => (st, false)
  | .ok gpu' =>
    let job' := { st.job with gpu_id := some st.gpu.id, compute_allocated := true }
    let sessions' :=
      startTracking st.sessions st.gpu.id gpuModel provider
        st.gpu.cost_per_hour now
    if commitOk then
      ({ gpu := gpu', job := job', sessions := sessions' }, true)
    else
      ({ st with sessions := sessions' }, false)

/-- `GPUAllocator.release_gpu` (`src/core/gpu_allocator.py:200-236`) as a
transaction over `AllocState`.  Note it performs no check that the job is
actually bound to this GPU: the mutation is unconditional.  The tracker update
(`stop_tracking`) precedes the commit, so a failed commit rolls back the GPU
and job rows only. -/
def releaseTxn (now : Int) (commitOk : Bool) (st : AllocState) :
    AllocState × Bool :=
  let gpu' := releaseGpuStep st.gpu st.job.memory_required
  let job' := { st.job with gpu_id := none, compute_allocated := false }
  let sessions' := stopTracking st.sessions st.gpu.id now
  if commitOk then
    ({ gpu := gpu', job := job', sessions := sessions' }, true)
  else
    ({ st with sessions := sessions' }, false)

/-- A queued 8000 MB job and the fresh GPU, with no open session. -/
def c5Job : JobRec :=
  { id := 5
    organization_id := 1
    memory_required := 8000
    status := .queued
    gpu_id := none
    compute_allocated := false }

def c5St : AllocState := { gpu := c1Gpu, job := c5Job, sessions := [] }

/-- C5, counterexample.  The (GPU, job, cost-session) triple is not
all-or-nothing: `start_tracking` mutates the in-memory tracker before
`db.commit()`, so when the commit fails the rollback restores the GPU and job
rows while the freshly created cost session survives — exactly one of the
three left mutated. -/
theorem commit_failure_leaves_session_mutated :
    (allocateTxn 4 100 "phi-2" "base" false c5St).2 = false ∧
    (allocateTxn 4 100 "phi-2" "base" false c5St).1.gpu = c5St.gpu ∧
    (allocateTxn 4 100 "phi-2" "base" false c5St).1.job = c5St.job ∧
    (allocateTxn 4 100 "phi-2" "base" false c5St).1.sessions ≠ c5St.sessions := by
  decide

/-- C5, amended.  All-or-nothing does hold for the (GPU, job) pair, on both
allocation and release: on any failure both rows are rolled back unchanged,
and on success both are mutated.  The cost session is outside the transaction
and follows no such rule. -/
theorem alloc_release_gpu_job_atomic (maxJobs : Nat) (now : Int)
    (gpuModel provider : String) (commitOk : Bool) (st : AllocState) :
    ((allocateTxn maxJobs now gpuModel provider commitOk st).2 = false →
      (allocateTxn maxJobs now gpuModel provider commitOk st).1.gpu = st.gpu ∧
      (allocateTxn maxJobs now gpuModel provider commitOk st).1.job = st.job) ∧
    ((allocateTxn maxJobs now gpuModel provider commitOk st).2 = true →
      allocateGpuStep maxJobs st.gpu st.job.memory_required =
        .ok (allocateTxn maxJobs now gpuModel provider commitOk st).1.gpu ∧
      (allocateTxn maxJobs now gpuModel provider commitOk st).1.job.gpu_id =
        some st.gpu.id) ∧
    ((releaseTxn now commitOk st).2 = false →
      (releaseTxn now commitOk st).1.gpu = st.gpu ∧
      (releaseTxn now commitOk st).1.job = st.job) ∧
    ((releaseTxn now commitOk st).2 = true →
      (releaseTxn now commitOk st).1.gpu =
        releaseGpuStep st.gpu st.job.memory_required ∧
      (releaseTxn now commitOk st).1.job.gpu_id = none) := by
  refine ⟨?_, ?_, ?_, ?_⟩
  · intro h
    unfold allocateTxn at h ⊢
    cases hstep : allocateGpuStep maxJobs st.gpu st.job.memory_required <;>
      cases commitOk <;> simp_all
  · intro h
    unfold allocateTxn at h ⊢
    cases hstep : allocateGpuStep maxJobs st.gpu st.job.memory_required <;>
      cases commitOk <;> simp_all
  · intro h
    unfold releaseTxn at h ⊢
    cases commitOk <;> simp_all
  · intro h
    unfold releaseTxn at h ⊢
    cases commitOk <;> simp_all

/-- Witness for `alloc_release_gpu_job_atomic`: a successful allocation of the
concrete job mutates both the GPU row and the job binding. -/
theorem alloc_release_gpu_job_atomic_witness :
    allocateGpuStep 4 c5St.gpu c5St.job.memory_required =
      .ok (allocateTxn 4 100 "phi-2" "base" true c5St).1.gpu ∧
    (allocateTxn 4 100 "phi-2" "base" true c5St).1.job.gpu_id =
      some c5St.gpu.id :=
  (alloc_release_gpu_job_atomic 4 100 "phi-2" "base" true c5St).2.1 rfl

/-- A RUNNING job recorded as bound to GPU 99, paired with the GPU whose id is
1: a mismatched (GPU, job) release pair. -/
def c7Job : JobRec :=
  { id := 7
    organization_id := 1
    memory_required := 8000
    status := .running
    gpu_id := some 99
    compute_allocated := true }

def c7St : AllocState := { gpu := c1Gpu, job := c7Job, sessions := [] }

/-- C7, counterexample.  `GPUAllocator.release_gpu` raises no ConsistencyError
for a job/GPU pair where `job.gpu_id ≠ gpu.id`: the release succeeds and
mutates the GPU record (and the job record) anyway. -/
theorem core_release_ignores_binding_mismatch :
    c7St.job.gpu_id ≠ some c7St.gpu.id ∧
    (releaseTxn 100 true c7St).2 = true ∧
    (releaseTxn 100 true c7St).1.gpu ≠ c7St.gpu ∧
    (releaseTxn 100 true c7St).1.job ≠ c7St.job := by
  decide

/-- A row of the `gpu_resources` table as read by `GPUService`
(`src/services/gpu.py`): memory as `memory_total`/`memory_allocated`, a single
`current_job_id` binding. -/
structure ServiceGpu where
  id : Nat
  status : GPUStatus
  memory_total : Int
  memory_allocated : Int
  current_job_id : Option Nat
deriving DecidableEq, Repr

/-- `GPUService.release_gpu` (`src/services/gpu.py:75-92`): under the per-GPU
lock, raise `ValueError` — before any update is issued, so neither record is
mutated — when the GPU's `current_job_id` is not the given job; otherwise free
the memory (clamped at zero), clear the binding and mark the GPU AVAILABLE. -/
def serviceReleaseGpu (g : ServiceGpu) (jobId : Nat) (memoryToFree : Int) :
    Except String ServiceGpu :=
  if g.current_job_id ≠ some jobId then
    .error "GPU is not allocated to job"
  else
    .ok { g with
          status := .available
          memory_allocated := max 0 (g.memory_allocated - memoryToFree)
          current_job_id := none }

/-- C7, amended.  Only the service-layer variant enforces the binding:
`GPUService.release_gpu` raises an error (a `ValueError`, playing the spec's
ConsistencyError role) and issues no update when the GPU is not bound to the
given job; the core `GPUAllocator.release_gpu` performs no such check and
mutates both records unconditionally. -/
theorem service_release_rejects_binding_mismatch (g : ServiceGpu)
    (jobId : Nat) (m : Int) (h : g.current_job_id ≠ some jobId) :
    serviceReleaseGpu g jobId m = .error "GPU is not allocated to job" := by
  simp [serviceReleaseGpu, h]

/-- Witness for `service_release_rejects_binding_mismatch`: releasing job 2
from a GPU bound to job 1 is rejected. -/
theorem service_release_rejects_binding_mismatch_witness :
    serviceReleaseGpu
        { id := 1
          status := .in_use
          memory_total := 16000
          memory_allocated := 8000
          current_job_id := some 1 } 2 8000 =
      .error "GPU is not allocated to job" :=
  service_release_rejects_binding_mismatch _ 2 8000 (by decide)

theorem foldl_preserve {α β : Type} (P : β → Prop) (f : β → α → β)
    (l : List α) (b : β) (hb : P b) (hf : ∀ b' a, P b' → P (f b' a)) :
    P (l.foldl f b) := by
  induction l generalizing b with
  | nil => exact hb
  | cons x xs ih => exact ih (f b x) (hf b x hb)

/-- One model's batching configuration from `GPUOptimizer.model_configs`
(`src/core/gpu_optimizer.py:17-42`).  Text models use `memory_per_token`,
image models `memory_per_image`; the memory figures are MB (floats in the
source, rationals here). -/
structure BatchConfig where
  max_batch_size : Nat
  memory_per_token : ℚ
  memory_per_image : ℚ
  base_memory : ℚ
  supports_batching : Bool
  batch_padding_penalty : ℚ
deriving DecidableEq, Repr

/-- A queued candidate job as the optimizer sees it: the model name selects
the image/text memory formula, `promptLen` is `len(job.parameters["prompt"])`
and `ageHours` the job's age in hours. -/
structure BatchJob where
  id : Nat
  model_name : String
  priority : Int
  promptLen : Nat
  ageHours : ℚ
deriving DecidableEq, Repr

/-- `GPUOptimizer._calculate_batch_memory` (`src/core/gpu_optimizer.py:132-151`):
an image batch costs `base_memory` plus `memory_per_image` per job; a text
batch costs `base_memory + max_tokens × memory_per_token × batch_size` where
`max_tokens = max(len(prompt) × 1.5)` over the batch (the fold starts from 0,
which agrees with Python's `max` since token estimates are nonnegative). -/
def calcBatchMemory (jobs : List BatchJob) (cfg : BatchConfig) : ℚ :=
  match jobs with
  | [] => 0
  | j :: _ =>
    if j.model_name.startsWith "stable-diffusion" then
      cfg.base_memory + (jobs.map fun _ => cfg.memory_per_image).sum
    else
      let maxTokens := (jobs.map fun jb => (jb.promptLen : ℚ) * (3/2)).foldl max 0
      cfg.base_memory + maxTokens * cfg.memory_per_token * (jobs.length : ℚ)

/-- `GPUOptimizer._calculate_job_score` (`src/core/gpu_optimizer.py:185-188`):
the urgency `priority × (1 + age_hours)`. -/
def calcJobScore (j : BatchJob) : ℚ := j.priority * (1 + j.ageHours)

/-- The contiguous windows `jobs[i : i + size]` for
`i ∈ range(len(jobs) − size + 1)`, as enumerated by `_find_optimal_batch`'s
inner loop. -/
def batchWindows (jobs : List BatchJob) (size : Nat) : List (List BatchJob) :=
  (List.range (jobs.length - size + 1)).map fun i => (jobs.drop i).take size

/-- `GPUOptimizer._find_optimal_batch` (`src/core/gpu_optimizer.py:103-130`),
parametric in the batch-scoring function `_calculate_batch_score` (whose exact
value — it involves a floating-point standard deviation — never affects which
windows pass the memory guard, only which passing window wins).  When the
config does not support batching, `jobs[0]` — the candidate list is
priority-ordered — is returned with its single-job score and no memory check
(the empty-candidate case, which the caller excludes with `if not jobs`, is
rendered as the empty batch).  Otherwise every window of size
`1..min(len(jobs), max_batch_size)` is tried; a window can only replace the
current best, starting from the empty batch with score 0, if its computed
memory fits `available_memory` and its score is strictly larger. -/
def findOptimalBatchWith (score : List BatchJob → ℚ) (jobs : List BatchJob)
    (availableMemory : ℚ) (cfg : BatchConfig) : List BatchJob × ℚ :=
  if cfg.supports_batching = false then
    match jobs with
    | [] => ([], 0)
    | j :: _ => ([j], calcJobScore j)
  else
    ((List.range (min jobs.length cfg.max_batch_size)).map (· + 1)).foldl
      (fun best size =>
        (batchWindows jobs size).foldl
          (fun best w =>
            if calcBatchMemory w cfg ≤ availableMemory then
              if best.2 < score w then (w, score w) else best
            else best)
          best)
      ([], 0)

/-- A configuration with batching unsupported, and a single image job whose
footprint (12000 + 3000 MB) exceeds a 1000 MB budget. -/
def c8Cfg : BatchConfig :=
  { max_batch_size := 4
    memory_per_token := 0
    memory_per_image := 3000
    base_memory := 12000
    supports_batching := false
    batch_padding_penalty := 0 }

def c8Job : BatchJob :=
  { id := 1
    model_name := "stable-diffusion-xl"
    priority := 50
    promptLen := 0
    ageHours := 0 }

/-- C8, counterexample.  The single-job fallback taken when the model does not
support batching is returned without any memory check: for a non-batching
config the optimizer hands back a batch whose computed footprint (15000 MB)
exceeds the GPU's 1000 MB of `available_memory`. -/
theorem fallback_batch_exceeds_memory :
    (findOptimalBatchWith (fun w => (w.map calcJobScore).sum)
        [c8Job] 1000 c8Cfg).1 = [c8Job] ∧
    ¬ calcBatchMemory
        (findOptimalBatchWith (fun w => (w.map calcJobScore).sum)
          [c8Job] 1000 c8Cfg).1 c8Cfg ≤ 1000 := by
  constructor
  · rfl
  · show ¬ calcBatchMemory [c8Job] c8Cfg ≤ 1000
    simp only [calcBatchMemory, c8Cfg, c8Job, List.map_cons, List.map_nil,
      List.sum_cons, List.sum_nil]
    split <;> norm_num

/-- C8, amended.  Whenever the configuration supports batching — as every
entry of the shipped `model_configs` table does — the returned window's
computed memory footprint never exceeds `available_memory`, for any scoring
function: a window must pass the memory guard before it can become the best,
and the initial empty window costs 0.  Only the non-batching single-job
fallback skips the check. -/
theorem batch_search_respects_memory (score : List BatchJob → ℚ)
    (jobs : List BatchJob) (availableMemory : ℚ) (cfg : BatchConfig)
    (hb : cfg.supports_batching = true) (h0 : 0 ≤ availableMemory) :
    calcBatchMemory
        (findOptimalBatchWith score jobs availableMemory cfg).1 cfg ≤
      availableMemory := by
  unfold findOptimalBatchWith
  rw [if_neg (by simp [hb])]
  apply foldl_preserve
    (fun b : List BatchJob × ℚ => calcBatchMemory b.1 cfg ≤ availableMemory)
  · simpa [calcBatchMemory] using h0
  · intro b size hbP
    apply foldl_preserve
      (fun b : List BatchJob × ℚ => calcBatchMemory b.1 cfg ≤ availableMemory)
      _ _ _ hbP
    intro b' w hb'
    by_cases hm : calcBatchMemory w cfg ≤ availableMemory
    · rw [if_pos hm]
      by_cases hs : b'.2 < score w
      · rw [if_pos hs]; exact hm
      · rw [if_neg hs]; exact hb'
    · rw [if_neg hm]; exact hb'

/-- The same single image job under a batching-enabled config fits a 16000 MB
budget. -/
def c8CfgBatching : BatchConfig :=
  { c8Cfg with supports_batching := true }

/-- Witness for `batch_search_respects_memory`: with batching enabled and
16000 MB free, the selected window's footprint fits. -/
theorem batch_search_respects_memory_witness :
    c8CfgBatching.supports_batching = true ∧
    (0 : ℚ) ≤ 16000 ∧
    calcBatchMemory
        (findOptimalBatchWith (fun w => (w.map calcJobScore).sum)
          [c8Job] 16000 c8CfgBatching).1 c8CfgBatching ≤ 16000 :=
  ⟨rfl, by norm_num,
   batch_search_respects_memory (fun w => (w.map calcJobScore).sum)
     [c8Job] 16000 c8CfgBatching rfl (by norm_num)⟩

/-- A spot-market offer as `_find_best_spot_offer` collects them
(`src/utils/spot_manager.py:110-141`): provider, instance type and hourly
price. -/
structure SpotOffer where
  provider : String
  instance_type : String
  price : ℚ
deriving DecidableEq, Repr

/-- The price order on offers; `min(offers, key=price)` keeps the first
cheapest offer. -/
def offerLt (a b : SpotOffer) : Prop := a.price < b.price

instance : DecidableRel offerLt := fun a b => by unfold offerLt; infer_instance

/-- `SpotManager._find_best_spot_offer` (`src/utils/spot_manager.py:110-141`):
keep the offers priced at or below `max_price` (a failing provider's offers
are already absent from the gathered list) and return the cheapest, or `None`
when none qualifies. -/
def findBestSpotOffer (offers : List SpotOffer) (maxPrice : ℚ) :
    Option SpotOffer :=
  minBy offerLt (offers.filter fun o => decide (o.price ≤ maxPrice))

/-- The instance information a provider returns from `provision_instance`. -/
structure InstanceInfo where
  instance_id : Nat
  gpu_name : String
  total_memory : Int
  capabilities : List (String × String)
deriving DecidableEq, Repr

/-- The number of spot-provider GPU rows: `provision_gpu`'s capacity query
counts every row with `provider == SPOT`, whatever its status. -/
def spotCount (fleet : List GPU) : Nat :=
  (fleet.filter fun g => g.provider_spot).length

/-- What the marketplace does after the best offer is chosen: the provision
call itself raises, or the created instance polls to ready, or it never
becomes ready. -/
inductive SpotOutcome where
  | callFailed
  | ready (info : InstanceInfo)
  | notReady (info : InstanceInfo)
deriving DecidableEq, Repr

/-- The GPU row `provision_gpu` creates (`src/utils/spot_manager.py:86-100`),
in the status `_wait_for_instance` leaves behind. -/
def mkSpotGpu (offer : SpotOffer) (info : InstanceInfo) (st : GPUStatus)
    (orgId : Nat) : GPU :=
  { id := info.instance_id
    organization_id := orgId
    status := st
    total_memory := info.total_memory
    available_memory := info.total_memory
    current_job_count := 0
    capabilities := info.capabilities
    cost_per_hour := offer.price
    termination_time := none
    provider_spot := true }

/-- `SpotManager.provision_gpu` (`src/utils/spot_manager.py:51-108`): refuse —
`None`, nothing created — when the spot count is already at
`max_spot_instances`; otherwise pick the cheapest affordable offer (`None`
when there is none) and provision it.  A failed provision call creates
nothing; a created row stays in the fleet whether polling ends AVAILABLE (the
GPU is returned) or the instance never becomes ready (OFFLINE, `None`
returned). -/
def provisionGpu (maxSpotInstances orgId : Nat) (fleet : List GPU)
    (offers : List SpotOffer) (maxPrice : ℚ) (outcome : SpotOutcome) :
    Option GPU × List GPU :=
  if maxSpotInstances ≤ spotCount fleet then
    (none, fleet)
  else
    match findBestSpotOffer offers maxPrice with
    | none => (none, fleet)
    | some offer =>
      match outcome with
      | .callFailed => (none, fleet)
      | .ready info =>
        let g := mkSpotGpu offer info .available orgId
        (some g, g :: fleet)
      | .notReady info =>
        let g := mkSpotGpu offer info .offline orgId
        (none, g :: fleet)

/-- One provisioning request: the offers the providers return, the price cap,
and how the chosen provision attempt unfolds. -/
structure SpotRequest where
  offers : List SpotOffer
  maxPrice : ℚ
  outcome : SpotOutcome
deriving DecidableEq, Repr

/-- A sequence of provisioning requests against the fleet. -/
def runSpotRequests (maxSpotInstances orgId : Nat) (fleet : List GPU)
    (reqs : List SpotRequest) : List GPU :=
  reqs.foldl
    (fun f r => (provisionGpu maxSpotInstances orgId f r.offers r.maxPrice r.outcome).2)
    fleet

theorem spotCount_cons (g : GPU) (fleet : List GPU) :
    spotCount (g :: fleet) =
      (if g.provider_spot then 1 else 0) + spotCount fleet := by
  simp only [spotCount, List.filter_cons]
  by_cases h : g.provider_spot <;> simp [h, Nat.add_comm]

theorem provisionGpu_count_le (maxSpotInstances orgId : Nat)
    (fleet : List GPU) (offers : List SpotOffer) (maxPrice : ℚ)
    (outcome : SpotOutcome) (h : spotCount fleet ≤ maxSpotInstances) :
    spotCount
        (provisionGpu maxSpotInstances orgId fleet offers maxPrice outcome).2 ≤
      maxSpotInstances := by
  unfold provisionGpu
  by_cases hcap : maxSpotInstances ≤ spotCount fleet
  · rw [if_pos hcap]; exact h
  · rw [if_neg hcap]
    cases findBestSpotOffer offers maxPrice with
    | none => exact h
    | some offer =>
      cases outcome with
      | callFailed => exact h
      | ready info =>
        simp only [spotCount_cons, mkSpotGpu, if_pos]
        omega
      | notReady info =>
        simp only [spotCount_cons, mkSpotGpu, if_pos]
        omega

/-- C9: the number of live spot leases never exceeds `max_spot_instances`.
At capacity `provision_gpu` returns `None` and creates nothing; below
capacity at most one spot row is created, so `spotCount ≤ max_spot_instances`
is preserved by a single request and hence by every sequence of requests. -/
theorem spot_capacity_never_exceeded (maxSpotInstances orgId : Nat)
    (fleet : List GPU) (offers : List SpotOffer) (maxPrice : ℚ)
    (outcome : SpotOutcome) (reqs : List SpotRequest) :
    (maxSpotInstances ≤ spotCount fleet →
      provisionGpu maxSpotInstances orgId fleet offers maxPrice outcome =
        (none, fleet)) ∧
    (spotCount fleet ≤ maxSpotInstances →
      spotCount
          (provisionGpu maxSpotInstances orgId fleet offers maxPrice
            outcome).2 ≤
        maxSpotInstances) ∧
    (spotCount fleet ≤ maxSpotInstances →
      spotCount (runSpotRequests maxSpotInstances orgId fleet reqs) ≤
        maxSpotInstances) := by
  refine ⟨?_, ?_, ?_⟩
  · intro h
    unfold provisionGpu
    rw [if_pos h]
  · exact provisionGpu_count_le maxSpotInstances orgId fleet offers maxPrice
      outcome
  · intro h
    induction reqs generalizing fleet with
    | nil => exact h
    | cons r rs ih =>
      simp only [runSpotRequests, List.foldl_cons] at *
      exact ih _ (provisionGpu_count_le maxSpotInstances orgId fleet r.offers
        r.maxPrice r.outcome h)

/-- A fleet already holding two spot rows. -/
def spotFleet : List GPU :=
  [{ c1Gpu with id := 21, provider_spot := true },
   { c1Gpu with id := 22, provider_spot := true },
   { c1Gpu with id := 23, provider_spot := false }]

/-- Witness for `spot_capacity_never_exceeded`: with `max_spot_instances = 2`
and two spot rows live, a further request is refused and creates nothing. -/
theorem spot_capacity_never_exceeded_witness :
    provisionGpu 2 1 spotFleet
        [{ provider := "vast", instance_type := "a100", price := 9/10 }] 1
        SpotOutcome.callFailed =
      (none, spotFleet) :=
  (spot_capacity_never_exceeded 2 1 spotFleet
    [{ provider := "vast", instance_type := "a100", price := 9/10 }] 1
    SpotOutcome.callFailed []).1 (by decide)

theorem sum_filter_map {α M : Type} [AddCommMonoid M] (p : α → Prop)
    [DecidablePred p] (f : α → M) (l : List α) :
    ((l.filter fun a => decide (p a)).map f).sum =
      (l.map fun a => if p a then f a else 0).sum := by
  induction l with
  | nil => rfl
  | cons x xs ih => by_cases h : p x <;> simp [List.filter_cons, h, ih]

/-- The aggregate returned by `CostTracker.get_usage_report`
(`src/utils/cost_tracker.py:67-99`). -/
structure UsageReport where
  total_cost : ℚ
  total_jobs : Nat
  cost_per_job : ℚ
  by_provider : List (String × ℚ)
  by_model : List (String × ℚ)
deriving DecidableEq, Repr

/-- The `dict.get(key, 0.0) + cost` accumulation of the report's per-provider
and per-model breakdowns, on an ordered association list. -/
def addToGroup (acc : List (String × ℚ)) (k : String) (v : ℚ) :
    List (String × ℚ) :=
  match acc.lookup k with
  | some old => acc.map fun e => if e.1 = k then (e.1, old + v) else e
  | none => acc ++ [(k, v)]

/-- `CostTracker.get_usage_report` (`src/utils/cost_tracker.py:67-99`): over
the history entries whose `start_time` lies in the window (`≥ since`), sum
`total_cost` and `jobs_completed` overall and by provider/model;
`cost_per_job` is `total_cost / total_jobs` guarded to 0 when no job
completed. -/
def getUsageReport (usage : List (Nat × UsageRecord)) (since : Int) :
    UsageReport :=
  let inWindow := usage.filter fun e => decide (since ≤ e.2.start_time)
  let totalCost := (inWindow.map fun e => e.2.total_cost).sum
  let totalJobs := (inWindow.map fun e => e.2.jobs_completed).sum
  { total_cost := totalCost
    total_jobs := totalJobs
    cost_per_job := if 0 < totalJobs then totalCost / (totalJobs : ℚ) else 0
    by_provider :=
      inWindow.foldl (fun acc e => addToGroup acc e.2.provider e.2.total_cost) []
    by_model :=
      inWindow.foldl (fun acc e => addToGroup acc e.2.gpu_model e.2.total_cost) [] }

/-- C10: the usage report is total.  With zero jobs completed in the window
`cost_per_job` is 0 rather than a division error; with a positive count it is
the exact ratio of the totals; and the totals are the sums of `total_cost`
and `jobs_completed` over exactly the sessions whose `start_time` falls in
the window. -/
theorem usage_report_total (usage : List (Nat × UsageRecord)) (since : Int) :
    ((getUsageReport usage since).total_jobs = 0 →
      (getUsageReport usage since).cost_per_job = 0) ∧
    (0 < (getUsageReport usage since).total_jobs →
      (getUsageReport usage since).cost_per_job *
          ((getUsageReport usage since).total_jobs : ℚ) =
        (getUsageReport usage since).total_cost) ∧
    (getUsageReport usage since).total_cost =
      (usage.map fun e =>
        if since ≤ e.2.start_time then e.2.total_cost else 0).sum ∧
    (getUsageReport usage since).total_jobs =
      (usage.map fun e =>
        if since ≤ e.2.start_time then e.2.jobs_completed else 0).sum := by
  refine ⟨?_, ?_, ?_, ?_⟩
  · intro h
    simp only [getUsageReport] at h ⊢
    rw [if_neg (by omega)]
  · intro h
    simp only [getUsageReport] at h ⊢
    rw [if_pos h]
    rw [div_mul_cancel₀]
    exact Nat.cast_ne_zero.mpr (by omega)
  · exact sum_filter_map _ _ usage
  · exact sum_filter_map _ _ usage

/-- A session that closed before the reporting window opens. -/
def c10Usage : UsageRecord :=
  { gpu_model := "A100"
    provider := "spot"
    cost_per_hour := 3
    start_time := 0
    end_time := some 7200
    total_cost := 6
    total_hours := 2
    jobs_completed := 5 }

/-- Witness for `usage_report_total`: a window containing no sessions reports
zero jobs and `cost_per_job = 0`. -/
theorem usage_report_total_witness :
    (getUsageReport [(1, c10Usage)] 5).total_jobs = 0 ∧
    (getUsageReport [(1, c10Usage)] 5).cost_per_job = 0 :=
  ⟨rfl, (usage_report_total [(1, c10Usage)] 5).1 rfl⟩

end GpuFleet
